import Mathlib

/-!
Verification development for the agile-project backend (users app and tasks
routing). The repository ships the users test suite and the tasks URL table;
the users models, serializers and views themselves are reconstructed here
from the specification, as noted on each definition.
-/

namespace AgileProject

/-- Character allowed by the username rule `[A-Za-z0-9_]`. -/
def usernameChar (c : Char) : Bool :=
  c.isAlphanum || c == '_'

/-- Modelled from the spec: username invariant `^[A-Za-z0-9_]+$`
(nonempty, alphanumerics and underscore only); the username serializer
check is absent from src. -/
def usernameValid (s : String) : Bool :=
  !s.data.isEmpty && s.data.all usernameChar

/-- Modelled from the spec: first/last name invariant `^[a-zA-Z]*$`
(alphabetic characters only, possibly empty); the name serializer check is
absent from src. -/
def nameValid (s : String) : Bool :=
  s.data.all Char.isAlpha

/-- Modelled from the spec: the enumerated set of allowed role strings for
`position`. The full set is absent from src; the tests accept
"Programmer", "CEO" and "CTO" and reject "Worker". -/
def allowedPositions : List String :=
  ["CEO", "CTO", "Programmer"]

/-- List of characters after the first `@`, empty when there is none. -/
def afterAt : List Char → List Char
  | [] => []
  | c :: cs => if c == '@' then cs else afterAt cs

/-- Modelled from the spec: "email (validated format)"; the concrete email
validator is absent from src, so a minimal well-formedness check is used:
exactly one `@`, nonempty local part, and a dot in the nonempty domain. -/
def emailValid (s : String) : Bool :=
  let cs := s.data
  cs.count '@' == 1 && cs.head? != some '@' &&
    !(afterAt cs).isEmpty && (afterAt cs).contains '.'

/-- Modelled from the spec: "creates a User record with hashed password";
the concrete hash function is absent from src, so hashing is modelled as an
injective tagging of the plaintext. -/
def hashPassword (p : String) : String :=
  "pbkdf2:" ++ p

/-- Modelled from the spec: "stored password verifies against the
plaintext"; mirrors the model method `check_password` used by the tests. -/
def checkPassword (stored plain : String) : Bool :=
  stored == hashPassword plain

/-- Registration payload: the seven fields the registration endpoint
accepts (spec section 4.1). -/
structure RegPayload where
  username : String
  first_name : String
  last_name : String
  email : String
  phone : String
  position : String
  password : String
  re_password : String
  deriving Repr, DecidableEq

/-- Persisted User record (spec section 3): stored password is the hash,
`projectId` is the optional relation to a Project. -/
structure User where
  id : Nat
  username : String
  first_name : String
  last_name : String
  email : String
  phone : String
  position : String
  password : String
  projectId : Option Nat
  deriving Repr, DecidableEq

/-- Persisted Project record (spec section 3). -/
structure Project where
  id : Nat
  name : String
  deriving Repr, DecidableEq

/-- The relational store backing the views. -/
structure Store where
  users : List User
  projects : List Project
  nextUserId : Nat
  deriving Repr, DecidableEq

/-- The empty store. -/
def emptyStore : Store :=
  { users := [], projects := [], nextUserId := 1 }

/-- A validation error: either a non-field error or an error keyed by a
field name (spec section 4.1, error signaling). -/
inductive RegError where
  | nonField (msg : String)
  | field (key : String) (msg : String)
  deriving Repr, DecidableEq

/-- Error message for a username charset violation (exact string asserted
by the tests). -/
def usernameErrMsg : String :=
  "The username must be alphanumeric characters or have only _ symbol"

/-- Error message for a first-name charset violation (exact string asserted
by the tests). -/
def firstNameErrMsg : String :=
  "The first name must contain only alphabet symbols"

/-- Error message for a last-name charset violation (exact string asserted
by the tests). -/
def lastNameErrMsg : String :=
  "The last name must contain only alphabet symbols"

/-- Error message for a password confirmation mismatch (exact string
asserted by the tests). -/
def passwordErrMsg : String :=
  "Passwords don\x27t match"

/-- Modelled from the spec: the registration validator
(`RegisterUserSerializer`, absent from src). Checks run in the spec order:
username charset, then first-name charset, then last-name charset, then
position membership, then password equality; the field-level email format
check follows, and the first violated check determines the reported
error. -/
def validateRegistration (p : RegPayload) : Except RegError RegPayload :=
  if !usernameValid p.username then
    .error (.nonField usernameErrMsg)
  else if !nameValid p.first_name then
    .error (.nonField firstNameErrMsg)
  else if !nameValid p.last_name then
    .error (.nonField lastNameErrMsg)
  else if !allowedPositions.contains p.position then
    .error (.field "position" "Invalid position")
  else if p.password != p.re_password then
    .error (.field "password" passwordErrMsg)
  else if !emailValid p.email then
    .error (.field "email" "Enter a valid email address.")
  else
    .ok p

/-- Builds the persisted User from a validated payload: stored fields equal
the submitted values and the password is stored hashed. -/
def mkUser (id : Nat) (p : RegPayload) : User :=
  { id := id
    username := p.username
    first_name := p.first_name
    last_name := p.last_name
    email := p.email
    phone := p.phone
    position := p.position
    password := hashPassword p.password
    projectId := none }

/-- Outcome of POST /api/v1/users/register/: 201 with the new store, or
400 with a structured error. -/
inductive RegisterResult where
  | created (s : Store)
  | badRequest (e : RegError)
  deriving Repr, DecidableEq

/-- HTTP status of a registration outcome. -/
def RegisterResult.status : RegisterResult → Nat
  | .created _ => 201
  | .badRequest _ => 400

/-- Modelled from the spec: the registration view (absent from src).
Validates the payload; on success persists exactly one new User with
hashed password and returns 201, otherwise returns 400. -/
def registerUser (s : Store) (p : RegPayload) : RegisterResult :=
  match validateRegistration p with
  | .error e => .badRequest e
  | .ok v =>
      .created { s with
        users := s.users ++ [mkUser s.nextUserId v]
        nextUserId := s.nextUserId + 1 }

/-- Wire representation of a User (spec section 6): all scalar fields plus
the related project rendered by name, not by identifier. -/
structure UserRepr where
  username : String
  first_name : String
  last_name : String
  email : String
  phone : String
  position : String
  project : Option String
  deriving Repr, DecidableEq

/-- Looks up a project by primary key. -/
def lookupProject (s : Store) (pid : Nat) : Option Project :=
  s.projects.find? (fun pr => pr.id == pid)

/-- Modelled from the spec: the user serializer for responses (absent from
src); `project` is the related project name as a string, not its
identifier. -/
def serializeUser (s : Store) (u : User) : UserRepr :=
  { username := u.username
    first_name := u.first_name
    last_name := u.last_name
    email := u.email
    phone := u.phone
    position := u.position
    project := u.projectId.bind (fun pid => (lookupProject s pid).map Project.name) }

/-- Modelled from the spec: GET /api/v1/users/ (view absent from src):
204 with an empty list when no records exist, else 200 with the serialized
records. Returns (status, body). -/
def userListView (s : Store) : Nat × List UserRepr :=
  if s.users.isEmpty then (204, [])
  else (200, s.users.map (serializeUser s))

/-- Outcome of GET /api/v1/users/(id)/: 200 with one record, or 404 with a
body holding a `detail` message. -/
inductive DetailResponse where
  | ok (body : UserRepr)
  | notFound (detail : String)
  deriving Repr, DecidableEq

/-- HTTP status of a detail outcome. -/
def DetailResponse.status : DetailResponse → Nat
  | .ok _ => 200
  | .notFound _ => 404

/-- Modelled from the spec: GET /api/v1/users/(id)/ (view absent from src):
200 with the serialized record when the primary key exists, else 404 with a
`detail` message. -/
def userDetailView (s : Store) (pk : Nat) : DetailResponse :=
  match s.users.find? (fun u => u.id == pk) with
  | some u => .ok (serializeUser s u)
  | none => .notFound "Not found."

/-- A task/tag route handler, as declared in src/apps/tasks/urls.py. -/
inductive TasksRoute where
  | taskList
  | taskDetail (pk : Nat)
  | tagList
  | tagDetail (pk : Nat)
  deriving Repr, DecidableEq

/-- The framework int path converter accepts a segment iff it is a
nonempty string of decimal digits (a non-negative decimal integer). -/
def isIntSegment (s : String) : Bool :=
  !s.data.isEmpty && s.data.all Char.isDigit

/-- Numeric value of a digits-only segment. -/
def segToNat (s : String) : Nat :=
  s.toNat?.getD 0

/-- URL resolution for the tasks app, from src/apps/tasks/urls.py: the
patterns are tried in declaration order against the slash-split path
segments; a detail route is dispatched only when its id segment passes the
int converter. -/
def resolveTasksUrl (segs : List String) : Option TasksRoute :=
  match segs with
  | [] => some .taskList
  | [s] =>
      if isIntSegment s then some (.taskDetail (segToNat s))
      else if s == "tags" then some .tagList
      else none
  | [s1, s2] =>
      if s1 == "tags" && isIntSegment s2 then some (.tagDetail (segToNat s2))
      else none
  | _ => none

/-! ### Concrete fixtures, drawn from the test suite -/

/-- The all-valid registration payload used by the tests. -/
def payloadGlen : RegPayload :=
  { username := "glensteff"
    first_name := "Glen"
    last_name := "Steffani"
    email := "glen@mail.com"
    phone := "87778992277"
    position := "CTO"
    password := "passwordpassword"
    re_password := "passwordpassword" }

/-- A stored user fixture from the list test. -/
def userAnton : User :=
  { id := 1
    username := "Administrator"
    first_name := "Anton"
    last_name := "Kimmels"
    email := "anton@mail.com"
    phone := "+78779521456"
    position := "Programmer"
    password := hashPassword "password"
    projectId := none }

/-- A second stored user fixture from the list test. -/
def userAndrey : User :=
  { id := 2
    username := "Andrey"
    first_name := "Andrey"
    last_name := "Popov"
    email := "andrey@mail.com"
    phone := "878779521456"
    position := "CEO"
    password := hashPassword "passwordpassword"
    projectId := none }

/-- The project fixture from the detail test. -/
def projectGlen : Project :=
  { id := 1, name := "Glen CTO project" }

/-- The stored user fixture from the detail test, related to its project. -/
def userGlen : User :=
  { id := 1
    username := "glensteff"
    first_name := "Glen"
    last_name := "Steffani"
    email := "glen@mail.com"
    phone := "87778992277"
    position := "CTO"
    password := hashPassword "passwordpassword"
    projectId := some 1 }

/-- Store with the two list-test users. -/
def storeTwoUsers : Store :=
  { users := [userAnton, userAndrey], projects := [], nextUserId := 3 }

/-- Store with the detail-test user and its project. -/
def storeGlen : Store :=
  { users := [userGlen], projects := [projectGlen], nextUserId := 2 }

/-- A payload violating several checks at once: bad username charset, bad
first-name charset, and mismatched passwords. -/
def payloadMulti : RegPayload :=
  { payloadGlen with
    username := "*glensteff"
    first_name := "Glen1234"
    re_password := "password" }

/-! ### Helper lemmas -/

/-- The validator accepts exactly the payloads passing all six checks, and
returns the payload itself as validated data. -/
theorem validateRegistration_ok_iff (p v : RegPayload) :
    validateRegistration p = .ok v ↔
      (usernameValid p.username = true ∧ nameValid p.first_name = true ∧
       nameValid p.last_name = true ∧
       allowedPositions.contains p.position = true ∧
       p.password = p.re_password ∧ emailValid p.email = true ∧ v = p) := by
  unfold validateRegistration
  repeat' split
  all_goals simp_all
  all_goals exact eq_comm

/-- Registration only ever persists users whose position passed the
membership check: any user of the post-state was already stored or carries
an allowed position. -/
theorem registerUser_position_invariant (q : RegPayload) (t t' : Store)
    (h : registerUser t q = .created t') :
    ∀ u ∈ t'.users, u ∈ t.users ∨ u.position ∈ allowedPositions := by
  unfold registerUser at h
  cases hv : validateRegistration q with
  | error e => rw [hv] at h; exact absurd h (by simp)
  | ok v =>
      rw [hv] at h
      obtain ⟨_, _, _, hpos, _, _, hvq⟩ := (validateRegistration_ok_iff q v).mp hv
      cases h
      intro u hu
      rcases List.mem_append.mp hu with hold | hnew
      · exact Or.inl hold
      · right
        rcases List.mem_singleton.mp hnew with rfl
        subst hvq
        simpa [mkUser] using List.mem_of_elem_eq_true hpos

/-! ### Claim theorems -/

/-- C1: registering with an all-valid payload (valid username, names,
email, position, and matching password confirmation) returns HTTP 201 and
persists exactly one new User whose stored fields equal the submitted
values and whose stored password is a hash verifying against the submitted
plaintext password. -/
theorem register_valid_creates_user (s : Store) (p : RegPayload)
    (hu : usernameValid p.username = true)
    (hf : nameValid p.first_name = true)
    (hl : nameValid p.last_name = true)
    (hp : allowedPositions.contains p.position = true)
    (hpw : p.password = p.re_password)
    (he : emailValid p.email = true) :
    (registerUser s p).status = 201 ∧
    registerUser s p = .created
      { s with users := s.users ++ [mkUser s.nextUserId p]
               nextUserId := s.nextUserId + 1 } ∧
    (mkUser s.nextUserId p).username = p.username ∧
    (mkUser s.nextUserId p).first_name = p.first_name ∧
    (mkUser s.nextUserId p).last_name = p.last_name ∧
    (mkUser s.nextUserId p).email = p.email ∧
    (mkUser s.nextUserId p).position = p.position ∧
    (mkUser s.nextUserId p).password ≠ p.password ∧
    checkPassword (mkUser s.nextUserId p).password p.password = true := by
  have hok : validateRegistration p = .ok p :=
    (validateRegistration_ok_iff p p).mpr ⟨hu, hf, hl, hp, hpw, he, rfl⟩
  refine ⟨?_, ?_, rfl, rfl, rfl, rfl, rfl, ?_, ?_⟩
  · simp [registerUser, hok, RegisterResult.status]
  · simp [registerUser, hok]
  · simp [mkUser, hashPassword]
    intro hcontra
    have : ("pbkdf2:" ++ p.password).length = p.password.length := by rw [hcontra]
    simp [String.length_append] at this
    exact absurd this (by decide)
  · simp [mkUser, checkPassword]

/-- C1 witness: the all-valid test payload registered against the empty
store. -/
theorem register_valid_creates_user_witness :
    (registerUser emptyStore payloadGlen).status = 201 ∧
    registerUser emptyStore payloadGlen = .created
      { emptyStore with
          users := emptyStore.users ++ [mkUser emptyStore.nextUserId payloadGlen]
          nextUserId := emptyStore.nextUserId + 1 } ∧
    (mkUser emptyStore.nextUserId payloadGlen).username = payloadGlen.username ∧
    (mkUser emptyStore.nextUserId payloadGlen).first_name = payloadGlen.first_name ∧
    (mkUser emptyStore.nextUserId payloadGlen).last_name = payloadGlen.last_name ∧
    (mkUser emptyStore.nextUserId payloadGlen).email = payloadGlen.email ∧
    (mkUser emptyStore.nextUserId payloadGlen).position = payloadGlen.position ∧
    (mkUser emptyStore.nextUserId payloadGlen).password ≠ payloadGlen.password ∧
    checkPassword (mkUser emptyStore.nextUserId payloadGlen).password
      payloadGlen.password = true :=
  register_valid_creates_user emptyStore payloadGlen (by decide) (by decide)
    (by decide) (by decide) rfl (by decide)

/-- C2: for every store with zero User records, GET /api/v1/users/ returns
HTTP 204 together with an empty list body. -/
theorem users_list_empty_204 (s : Store) (h : s.users = []) :
    userListView s = (204, []) := by
  simp [userListView, h]

/-- C2 witness: the empty store. -/
theorem users_list_empty_204_witness :
    userListView emptyStore = (204, []) :=
  users_list_empty_204 emptyStore rfl

/-- C3: for every stored User found under the requested primary key, the
detail view returns HTTP 200 with a body whose username, first_name,
last_name, email, phone and position equal the stored values and whose
project field is the related project name (a string), not its
identifier. -/
theorem user_detail_success (s : Store) (pk : Nat) (u : User) (pr : Project)
    (hfind : s.users.find? (fun x => x.id == pk) = some u)
    (hrel : u.projectId = some pr.id)
    (hpr : lookupProject s pr.id = some pr) :
    (userDetailView s pk).status = 200 ∧
    userDetailView s pk = .ok (serializeUser s u) ∧
    (serializeUser s u).username = u.username ∧
    (serializeUser s u).first_name = u.first_name ∧
    (serializeUser s u).last_name = u.last_name ∧
    (serializeUser s u).email = u.email ∧
    (serializeUser s u).phone = u.phone ∧
    (serializeUser s u).position = u.position ∧
    (serializeUser s u).project = some pr.name := by
  refine ⟨?_, ?_, rfl, rfl, rfl, rfl, rfl, rfl, ?_⟩
  · simp [userDetailView, hfind, DetailResponse.status]
  · simp [userDetailView, hfind]
  · simp [serializeUser, hrel, hpr]

/-- C3 witness: the detail-test fixture, user 1 related to the project
named "Glen CTO project". -/
theorem user_detail_success_witness :
    (userDetailView storeGlen 1).status = 200 ∧
    userDetailView storeGlen 1 = .ok (serializeUser storeGlen userGlen) ∧
    (serializeUser storeGlen userGlen).username = userGlen.username ∧
    (serializeUser storeGlen userGlen).first_name = userGlen.first_name ∧
    (serializeUser storeGlen userGlen).last_name = userGlen.last_name ∧
    (serializeUser storeGlen userGlen).email = userGlen.email ∧
    (serializeUser storeGlen userGlen).phone = userGlen.phone ∧
    (serializeUser storeGlen userGlen).position = userGlen.position ∧
    (serializeUser storeGlen userGlen).project = some projectGlen.name :=
  user_detail_success storeGlen 1 userGlen projectGlen (by decide) rfl (by decide)

/-- C4: registering with a username holding any character outside
`[A-Za-z0-9_]` fails with HTTP 400 and a non-field error carrying exactly
the message "The username must be alphanumeric characters or have only _
symbol", whatever the other fields hold. -/
theorem register_invalid_username_charset (s : Store) (p : RegPayload)
    (c : Char) (hc : c ∈ p.username.data) (hbad : usernameChar c = false) :
    registerUser s p = .badRequest (.nonField usernameErrMsg) ∧
    (registerUser s p).status = 400 := by
  have hall : p.username.data.all usernameChar = false := by
    rw [List.all_eq_false]
    exact ⟨c, hc, by simp [hbad]⟩
  have huv : usernameValid p.username = false := by
    simp [usernameValid, hall]
  constructor
  · simp [registerUser, validateRegistration, huv]
  · simp [registerUser, validateRegistration, huv, RegisterResult.status]

/-- C4 witness: the test username containing the bad character, all other
fields valid. -/
theorem register_invalid_username_charset_witness :
    registerUser emptyStore { payloadGlen with username := "*glensteff" } =
      .badRequest (.nonField usernameErrMsg) ∧
    (registerUser emptyStore { payloadGlen with username := "*glensteff" }).status
      = 400 :=
  register_invalid_username_charset emptyStore
    { payloadGlen with username := "*glensteff" } (Char.ofNat 42)
    (by decide) (by decide)

/-- C5: registering with a password confirmation different from the
password, all earlier checks passing, fails with HTTP 400 and an error
keyed by the field name "password" whose message is exactly "Passwords
don\x27t match". -/
theorem register_password_mismatch (s : Store) (p : RegPayload)
    (hu : usernameValid p.username = true)
    (hf : nameValid p.first_name = true)
    (hl : nameValid p.last_name = true)
    (hp : allowedPositions.contains p.position = true)
    (hne : p.password ≠ p.re_password) :
    registerUser s p = .badRequest (.field "password" passwordErrMsg) ∧
    (registerUser s p).status = 400 := by
  have hp2 : p.position ∈ allowedPositions := List.mem_of_elem_eq_true hp
  constructor
  · simp [registerUser, validateRegistration, hu, hf, hl, hp2, hne]
  · simp [registerUser, validateRegistration, hu, hf, hl, hp2, hne,
      RegisterResult.status]

/-- C5 witness: the test payload with confirmation "password" against
password "passwordpassword". -/
theorem register_password_mismatch_witness :
    registerUser emptyStore { payloadGlen with re_password := "password" } =
      .badRequest (.field "password" passwordErrMsg) ∧
    (registerUser emptyStore
      { payloadGlen with re_password := "password" }).status = 400 :=
  register_password_mismatch emptyStore
    { payloadGlen with re_password := "password" }
    (by decide) (by decide) (by decide) (by decide) (by decide)

/-- C6: requesting a user detail under a primary key matching no stored
User yields HTTP 404 with a body holding a nonempty detail message. -/
theorem user_detail_not_found (s : Store) (pk : Nat)
    (h : s.users.find? (fun u => u.id == pk) = none) :
    userDetailView s pk = .notFound "Not found." ∧
    (userDetailView s pk).status = 404 := by
  constructor
  · simp [userDetailView, h]
  · simp [userDetailView, h, DetailResponse.status]

/-- C6 witness: primary key 99 against the single-user detail fixture. -/
theorem user_detail_not_found_witness :
    userDetailView storeGlen 99 = .notFound "Not found." ∧
    (userDetailView storeGlen 99).status = 404 :=
  user_detail_not_found storeGlen 99 (by decide)

/-- C7: for every store holding at least one User record and satisfying the
model name invariants, the list view returns HTTP 200 with one dict per
stored record, and every returned dict carries first_name and last_name
matching the alphabetic pattern. -/
theorem users_list_nonempty_200 (s : Store) (hne : s.users ≠ [])
    (hinv : ∀ u ∈ s.users,
      nameValid u.first_name = true ∧ nameValid u.last_name = true) :
    (userListView s).1 = 200 ∧
    (userListView s).2.length = s.users.length ∧
    ∀ r ∈ (userListView s).2,
      nameValid r.first_name = true ∧ nameValid r.last_name = true := by
  have hempty : s.users.isEmpty = false := by
    simpa [List.isEmpty_iff] using hne
  refine ⟨?_, ?_, ?_⟩
  · simp [userListView, hempty]
  · simp [userListView, hempty]
  · intro r hr
    rw [userListView] at hr
    simp [hempty] at hr
    obtain ⟨u, hu, hru⟩ := hr
    obtain ⟨h1, h2⟩ := hinv u hu
    subst hru
    exact ⟨h1, h2⟩

/-- C7 witness: the two-user list fixture. -/
theorem users_list_nonempty_200_witness :
    (userListView storeTwoUsers).1 = 200 ∧
    (userListView storeTwoUsers).2.length = storeTwoUsers.users.length ∧
    ∀ r ∈ (userListView storeTwoUsers).2,
      nameValid r.first_name = true ∧ nameValid r.last_name = true :=
  users_list_nonempty_200 storeTwoUsers (by decide) (by decide)

/-- C8: registering with a position outside the allowed set, all other
fields valid, fails with HTTP 400; moreover registration never persists a
user with a position outside the allowed set: every user of a post-state
was already stored or carries an allowed position. -/
theorem register_invalid_position (s : Store) (p : RegPayload)
    (hu : usernameValid p.username = true)
    (hf : nameValid p.first_name = true)
    (hl : nameValid p.last_name = true)
    (hpos : allowedPositions.contains p.position = false) :
    (registerUser s p).status = 400 ∧
    (∀ q t t', registerUser t q = RegisterResult.created t' →
      ∀ u ∈ t'.users, u ∈ t.users ∨ u.position ∈ allowedPositions) := by
  have hpos2 : p.position ∉ allowedPositions := by
    simpa using hpos
  constructor
  · simp [registerUser, validateRegistration, hu, hf, hl, hpos2,
      RegisterResult.status]
  · exact registerUser_position_invariant

/-- C8 witness: the test payload with position "Worker". -/
theorem register_invalid_position_witness :
    (registerUser emptyStore { payloadGlen with position := "Worker" }).status
      = 400 ∧
    (∀ q t t', registerUser t q = RegisterResult.created t' →
      ∀ u ∈ t'.users, u ∈ t.users ∨ u.position ∈ allowedPositions) :=
  register_invalid_position emptyStore { payloadGlen with position := "Worker" }
    (by decide) (by decide) (by decide) (by decide)

/-- C9: the validator checks run in this order: username charset, then
first-name charset, then last-name charset, then position membership, then
password equality; for an input violating several of these rules the
reported error is that of the earliest violated check. -/
theorem validator_check_order (p : RegPayload) :
    (usernameValid p.username = false →
      validateRegistration p = .error (.nonField usernameErrMsg)) ∧
    (usernameValid p.username = true → nameValid p.first_name = false →
      validateRegistration p = .error (.nonField firstNameErrMsg)) ∧
    (usernameValid p.username = true → nameValid p.first_name = true →
      nameValid p.last_name = false →
      validateRegistration p = .error (.nonField lastNameErrMsg)) ∧
    (usernameValid p.username = true → nameValid p.first_name = true →
      nameValid p.last_name = true →
      allowedPositions.contains p.position = false →
      validateRegistration p = .error (.field "position" "Invalid position")) ∧
    (usernameValid p.username = true → nameValid p.first_name = true →
      nameValid p.last_name = true →
      allowedPositions.contains p.position = true →
      p.password ≠ p.re_password →
      validateRegistration p = .error (.field "password" passwordErrMsg)) := by
  refine ⟨?_, ?_, ?_, ?_, ?_⟩
  · intro h1
    simp [validateRegistration, h1]
  · intro h1 h2
    simp [validateRegistration, h1, h2]
  · intro h1 h2 h3
    simp [validateRegistration, h1, h2, h3]
  · intro h1 h2 h3 h4
    have h4m : p.position ∉ allowedPositions := by
      simpa using h4
    simp [validateRegistration, h1, h2, h3, h4m]
  · intro h1 h2 h3 h4 h5
    have h4m : p.position ∈ allowedPositions := List.mem_of_elem_eq_true h4
    simp [validateRegistration, h1, h2, h3, h4m, h5]

/-- C9 witness: a payload violating the username rule, the first-name rule
and the password rule at once reports the username error, the earliest
violated check. -/
theorem validator_check_order_witness :
    validateRegistration payloadMulti = .error (.nonField usernameErrMsg) :=
  (validator_check_order payloadMulti).1 (by decide)

/-- C10: the task and tag detail routes use the int path converter, so a
request whose id segment is not a nonempty decimal-digit string dispatches
no task or tag detail handler. -/
theorem tasks_detail_requires_int_segment (s : String)
    (h : isIntSegment s = false) :
    (∀ pk, resolveTasksUrl [s] ≠ some (TasksRoute.taskDetail pk)) ∧
    (∀ pk, resolveTasksUrl [s] ≠ some (TasksRoute.tagDetail pk)) ∧
    resolveTasksUrl ["tags", s] = none := by
  refine ⟨?_, ?_, ?_⟩
  · intro pk
    rcases hs : s == "tags" with _ | _ <;> simp [resolveTasksUrl, h, hs]
  · intro pk
    rcases hs : s == "tags" with _ | _ <;> simp [resolveTasksUrl, h, hs]
  · simp [resolveTasksUrl, h]

/-- C10 witness: the non-numeric segment "abc" reaches no detail
handler. -/
theorem tasks_detail_requires_int_segment_witness :
    (∀ pk, resolveTasksUrl ["abc"] ≠ some (TasksRoute.taskDetail pk)) ∧
    (∀ pk, resolveTasksUrl ["abc"] ≠ some (TasksRoute.tagDetail pk)) ∧
    resolveTasksUrl ["tags", "abc"] = none :=
  tasks_detail_requires_int_segment "abc" (by decide)

end AgileProject
